import Mathlib

/-!
Verification of the audio-upload backend (Django app `core`): the
`health` and `send_audio` views in `apiManager/views.py` and the vendor
client wrapper in `utils/geminiClient.py`.

Shallow embedding: the process-global `_gemini_model` handle becomes an
explicit `GeminiState` threaded through the functions; interactions with
the external vendor SDK (client construction, audio-format conversion,
the live streaming session, the non-streaming transcription call) are
outcomes supplied by a `ProcessOracle`, since their behaviour lives
outside this repository.  File writes and vendor calls are returned as
explicit effect traces.  Python truthiness (`if not x`) is modelled by
the `...Falsy` helpers.
-/

deriving instance DecidableEq for Except

/-- Byte strings (audio payloads) as lists of byte values. -/
abbrev Bytes := List Nat

/-- The vendor client handle (`google.genai.Client`); opaque to this code,
so any inhabited type with decidable equality serves. -/
abbrev Client := Nat

/-- The module-global mutable state of `geminiClient.py`:
`_gemini_model = None` initially, set once on successful initialization. -/
structure GeminiState where
  gemini_model : Option Client
deriving Repr, DecidableEq

/-- Python `str(x)` applied to an optional string: `None` prints as "None"
(used by the f-strings in the source). -/
def pyStr : Option String → String
  | none => "None"
  | some s => s

/-- Error message from `get_gemini_model` when the API key is absent/empty
(geminiClient.py line 25). -/
def keyErrMsg : String :=
  "GEMINI_API_KEY environment variable not set or empty. Please set it in your .env file."

/-- The source's `api_key.strip() == ""` test: stripping
leading/trailing whitespace leaves the empty string exactly when every
character is whitespace. -/
def allWhitespace (k : String) : Bool :=
  k.toList.all (fun ch => ch.isWhitespace)

/-- `get_gemini_model` (geminiClient.py lines 14-38).  `apiKey` models
`os.getenv("GEMINI_API_KEY")`; `clientCtor` models the outcome of
`genai.Client(api_key=api_key)` (a handle, or a raised exception's
message).  Returns the `(model, error)` pair and the new global state. -/
def get_gemini_model (st : GeminiState) (apiKey : Option String)
    (clientCtor : Except String Client) :
    (Option Client × Option String) × GeminiState :=
  match st.gemini_model with
  | some m => ((some m, none), st)
  | none =>
    match apiKey with
    | none => ((none, some keyErrMsg), st)
    | some k =>
      if k.isEmpty || allWhitespace k then
        ((none, some keyErrMsg), st)
      else
        match clientCtor with
        | Except.ok c => ((some c, none), { gemini_model := some c })
        | Except.error e =>
            ((none, some ("Error during Gemini model configuration: " ++ e)), st)

/-- Run a sequence of `get_gemini_model` calls (each with its own
environment reading and constructor outcome), collecting the results. -/
def runCalls (st : GeminiState) :
    List (Option String × Except String Client) →
    GeminiState × List (Option Client × Option String)
  | [] => (st, [])
  | (key, ctor) :: rest =>
    let r := get_gemini_model st key ctor
    let rest' := runCalls r.2 rest
    (rest'.1, r.1 :: rest'.2)

/-- The two kinds of vendor request made by
`process_audio_and_get_audio_response`: the live (streaming) session, and
the non-streaming single-shot call made inside `generate_transcript`. -/
inductive VendorCall where
  | live
  | nonStreaming
deriving Repr, DecidableEq

/-- Outcomes of the external interactions performed during one
`process_audio_and_get_audio_response` request:
`clientCtor` for `genai.Client(...)`; `conversion` for the
`AudioSegment.from_file`/`export` decode step (error = exception text);
`liveOutcome` for `asyncio.run(_live_unified(...))` — either a raised
exception's text or the `(audio_bytes_or_None, text_or_None)` pair of
geminiClient.py line 246; `transcriptResult` for the string returned by
`generate_transcript` (which catches all its own exceptions and always
returns a string). -/
structure ProcessOracle where
  clientCtor : Except String Client
  conversion : Except String Unit
  liveOutcome : Except String (Option Bytes × Option String)
  transcriptResult : String
deriving Repr, DecidableEq

/-- Python truthiness of the optional text response (`if not text_resp`). -/
def textFalsy : Option String → Bool
  | none => true
  | some s => s.isEmpty

/-- Python truthiness of the optional audio payload
(`if not audio_response_data`): `None` and `b""` are falsy. -/
def bytesFalsy : Option Bytes → Bool
  | none => true
  | some b => b.isEmpty

/-- `process_audio_and_get_audio_response` (geminiClient.py lines
178-268).  Returns the `(audio_or_None, text_or_None)` result, the trace
of vendor calls made, and the new global state.  Branches follow the
source: model-init failure returns the init error; an exception in the
conversion step or the live call is caught by the outer `except` (line
265); when the live call succeeds but yields falsy text, the
non-streaming `generate_transcript` fallback supplies the text. -/
def process_audio_and_get_audio_response (st : GeminiState)
    (apiKey : Option String) (o : ProcessOracle) :
    (Option Bytes × Option String) × List VendorCall × GeminiState :=
  let r := get_gemini_model st apiKey o.clientCtor
  match r with
  | ((none, initErr), st1) =>
    ((none, some ("Error: Gemini model not initialized. " ++ pyStr initErr)), [], st1)
  | ((some _, _), st1) =>
    match o.conversion with
    | Except.error e =>
      ((none, some ("Error processing audio: " ++ e)), [], st1)
    | Except.ok _ =>
      match o.liveOutcome with
      | Except.error e =>
        ((none, some ("Error processing audio: " ++ e)), [VendorCall.live], st1)
      | Except.ok (audioResp, textResp) =>
        if textFalsy textResp then
          ((audioResp, some o.transcriptResult),
            [VendorCall.live, VendorCall.nonStreaming], st1)
        else
          ((audioResp, textResp), [VendorCall.live], st1)

/-- An uploaded file as the view sees it (Django `UploadedFile`):
a name and its content bytes. -/
structure UploadedFile where
  name : String
  content : Bytes
deriving Repr, DecidableEq

/-- Django `File.__bool__` is `bool(self.name)`, and `FILES.get('audio')`
is `None` when the field is missing, so `if not audio_file` holds exactly
here. -/
def fileFalsy : Option UploadedFile → Bool
  | none => true
  | some f => f.name.isEmpty

/-- An HTTP response body: a JSON object (list of key/value pairs) or raw
bytes. -/
inductive Body where
  | json (fields : List (String × String))
  | bytes (data : Bytes)
deriving Repr, DecidableEq

/-- An HTTP response. -/
structure HttpResponse where
  status : Nat
  contentType : String
  body : Body
deriving Repr, DecidableEq

/-- A file written to disk: its path and content. -/
structure FileWrite where
  path : String
  data : Bytes
deriving Repr, DecidableEq

/-- Error body text for a missing `audio` field (views.py line 31). -/
def missingAudioMsg : String :=
  "No audio file provided. Ensure the request is multipart/form-data and includes a field named \"audio\"."

/-- One `POST /send_audio/` request as the view receives it:
`audioField` is `request.FILES.get('audio')`; the two timestamps are the
`timezone.now().strftime(...)` readings at lines 38 and 66; the two
`save...Ok` flags model whether the guarded filesystem writes at lines
35-44 and 63-72 raise (their exceptions are swallowed). -/
structure SendAudioInput where
  audioField : Option UploadedFile
  apiKey : Option String
  oracle : ProcessOracle
  uploadTimestamp : String
  respTimestamp : String
  saveUploadOk : Bool
  saveResponseOk : Bool
deriving Repr, DecidableEq

/-- Result of one `send_audio` request: the HTTP response, the files
written, the vendor calls made, and the new process state. -/
structure SendAudioResult where
  resp : HttpResponse
  writes : List FileWrite
  calls : List VendorCall
  state : GeminiState
deriving Repr, DecidableEq

/-- `send_audio` (views.py lines 21-78).  Mirrors the source: 400 when
the `audio` field is falsy; otherwise attempt the upload save (exception
swallowed), call `process_audio_and_get_audio_response`, return 500 with
the text detail when the audio payload is falsy, else attempt the
response save (exception swallowed) and return the bytes as
`audio/mpeg`. -/
def send_audio (mediaRoot : String) (inp : SendAudioInput) (st : GeminiState) :
    SendAudioResult :=
  match inp.audioField with
  | none =>
    { resp := ⟨400, "application/json", Body.json [("error", missingAudioMsg)]⟩,
      writes := [], calls := [], state := st }
  | some f =>
    if f.name.isEmpty then
      { resp := ⟨400, "application/json", Body.json [("error", missingAudioMsg)]⟩,
        writes := [], calls := [], state := st }
    else
      let uploadWrites :=
        if inp.saveUploadOk then
          [⟨mediaRoot ++ "/uploads/upload_" ++ inp.uploadTimestamp ++ "_" ++ f.name,
            f.content⟩]
        else []
      let pr := process_audio_and_get_audio_response st inp.apiKey inp.oracle
      match pr with
      | ((audioData, textResp), calls, st1) =>
        match audioData with
        | none =>
          { resp := ⟨500, "application/json",
              Body.json [("error",
                "Failed to get audio response from Gemini. Details: " ++ pyStr textResp)]⟩,
            writes := uploadWrites, calls := calls, state := st1 }
        | some d =>
          if d.isEmpty then
            { resp := ⟨500, "application/json",
                Body.json [("error",
                  "Failed to get audio response from Gemini. Details: " ++ pyStr textResp)]⟩,
              writes := uploadWrites, calls := calls, state := st1 }
          else
            let respWrites :=
              if inp.saveResponseOk then
                [⟨mediaRoot ++ "/responses/response_" ++ inp.respTimestamp ++ ".mp3", d⟩]
              else []
            { resp := ⟨200, "audio/mpeg", Body.bytes d⟩,
              writes := uploadWrites ++ respWrites, calls := calls, state := st1 }

/-- `health` (views.py lines 12-14): ignores every bit of system state
and returns `200 {"status": "ok"}`, leaving the state unchanged. -/
def health (st : GeminiState) (_apiKey : Option String) : HttpResponse × GeminiState :=
  (⟨200, "application/json", Body.json [("status", "ok")]⟩, st)

/-! ## Helper lemmas -/

/-- With a cached handle, `get_gemini_model` returns it unchanged and does
not touch the state, whatever the environment or constructor outcome. -/
theorem get_gemini_model_cached (st : GeminiState) (c : Client)
    (apiKey : Option String) (ctor : Except String Client)
    (h : st.gemini_model = some c) :
    get_gemini_model st apiKey ctor = ((some c, none), st) := by
  simp [get_gemini_model, h]

/-- Fresh state, no key in the environment: the key error, state
untouched. -/
theorem get_gemini_model_no_key (st : GeminiState) (ctor : Except String Client)
    (hm : st.gemini_model = none) :
    get_gemini_model st none ctor = ((none, some keyErrMsg), st) := by
  simp [get_gemini_model, hm]

/-- Fresh state, empty/whitespace key: the key error, state untouched. -/
theorem get_gemini_model_empty_key (st : GeminiState) (k : String)
    (ctor : Except String Client) (hm : st.gemini_model = none)
    (hk : (k.isEmpty || allWhitespace k) = true) :
    get_gemini_model st (some k) ctor = ((none, some keyErrMsg), st) := by
  simp [get_gemini_model, hm, hk]

/-- Fresh state, usable key, constructor succeeds: the new client is
returned and cached. -/
theorem get_gemini_model_ctor_ok (st : GeminiState) (k : String) (c : Client)
    (hm : st.gemini_model = none) (hk : (k.isEmpty || allWhitespace k) = false) :
    get_gemini_model st (some k) (Except.ok c) = ((some c, none), ⟨some c⟩) := by
  simp [get_gemini_model, hm, hk]

/-- Fresh state, usable key, constructor raises: the configuration error,
state untouched. -/
theorem get_gemini_model_ctor_err (st : GeminiState) (k : String) (e : String)
    (hm : st.gemini_model = none) (hk : (k.isEmpty || allWhitespace k) = false) :
    get_gemini_model st (some k) (Except.error e) =
      ((none, some ("Error during Gemini model configuration: " ++ e)), st) := by
  simp [get_gemini_model, hm, hk]

/-- Whenever `get_gemini_model` hands back a client, that client is the
cached handle of the post-state. -/
theorem get_gemini_model_success_state (st : GeminiState) (c : Client)
    (apiKey : Option String) (ctor : Except String Client)
    (h : (get_gemini_model st apiKey ctor).1.1 = some c) :
    (get_gemini_model st apiKey ctor).2.gemini_model = some c := by
  cases hm : st.gemini_model with
  | some m =>
    rw [get_gemini_model_cached st m apiKey ctor hm] at h ⊢
    simp at h ⊢
    rw [hm, h]
  | none =>
    cases hk : apiKey with
    | none =>
      rw [hk, get_gemini_model_no_key st ctor hm] at h
      simp at h
    | some k =>
      by_cases hke : (k.isEmpty || allWhitespace k) = true
      · rw [hk, get_gemini_model_empty_key st k ctor hm hke] at h
        simp at h
      · have hke' : (k.isEmpty || allWhitespace k) = false := by
          simpa using hke
        cases hc : ctor with
        | ok c' =>
          rw [hk, hc, get_gemini_model_ctor_ok st k c' hm hke'] at h
          rw [get_gemini_model_ctor_ok st k c' hm hke']
          simp at h ⊢
          exact h
        | error e =>
          rw [hk, hc, get_gemini_model_ctor_err st k e hm hke'] at h
          simp at h

/-- Once the handle is cached, any sequence of further calls leaves the
state untouched and every call returns the cached handle with no error. -/
theorem runCalls_cached (st : GeminiState) (c : Client)
    (h : st.gemini_model = some c)
    (calls : List (Option String × Except String Client)) :
    (runCalls st calls).1 = st ∧
    ∀ r ∈ (runCalls st calls).2, r = (some c, none) := by
  induction calls with
  | nil => simp [runCalls]
  | cons p rest ih =>
    obtain ⟨key, ctor⟩ := p
    simp only [runCalls, get_gemini_model_cached st c key ctor h]
    refine ⟨ih.1, ?_⟩
    intro r hr
    simp at hr
    rcases hr with hr | hr
    · simp [hr]
    · exact ih.2 r hr

/-! ## Claims -/

/-- Claim C5: for every GET request to `/health/`, in every system state
(API key set or unset, vendor reachable or not), the response has status
200 and body `{"status": "ok"}`, and the state is untouched. -/
theorem C5_health_always_ok (st : GeminiState) (apiKey : Option String) :
    health st apiKey =
      (⟨200, "application/json", Body.json [("status", "ok")]⟩, st) := rfl

/-- Claim C6: the process-wide client handle is lazily initialized at most
once.  If some call to `get_gemini_model` successfully hands back a client
`c`, then after it every further call — with arbitrary environment
readings and constructor outcomes — returns that same handle `c` with no
error, and the state (hence the cached handle) is never overwritten. -/
theorem C6_lazy_init_at_most_once (st : GeminiState) (apiKey : Option String)
    (ctor : Except String Client) (c : Client)
    (h : (get_gemini_model st apiKey ctor).1.1 = some c)
    (calls : List (Option String × Except String Client)) :
    (runCalls (get_gemini_model st apiKey ctor).2 calls).1 =
      (get_gemini_model st apiKey ctor).2 ∧
    ∀ r ∈ (runCalls (get_gemini_model st apiKey ctor).2 calls).2,
      r = (some c, none) :=
  runCalls_cached _ c (get_gemini_model_success_state st c apiKey ctor h) calls

/-- Witness for C6: a fresh state, a first call that constructs client 7,
then two further calls (one with the key deleted, one with a different
constructor outcome) both still return client 7. -/
theorem C6_lazy_init_at_most_once_witness :
    (runCalls (get_gemini_model ⟨none⟩ (some "k") (Except.ok 7)).2
        [(none, Except.error "down"), (some "other", Except.ok 9)]).1 =
      (get_gemini_model ⟨none⟩ (some "k") (Except.ok 7)).2 ∧
    ∀ r ∈ (runCalls (get_gemini_model ⟨none⟩ (some "k") (Except.ok 7)).2
        [(none, Except.error "down"), (some "other", Except.ok 9)]).2,
      r = (some 7, none) :=
  C6_lazy_init_at_most_once ⟨none⟩ (some "k") (Except.ok 7) 7 (by decide)
    [(none, Except.error "down"), (some "other", Except.ok 9)]

/-- Claim C3: a POST to `/send_audio/` whose multipart body lacks a field
named `audio` gets status 400 with a JSON body carrying an `error` key,
and no vendor call is made, no file is written, and the state is
untouched. -/
theorem C3_missing_audio_field_400 (mediaRoot : String) (inp : SendAudioInput)
    (st : GeminiState) (h : inp.audioField = none) :
    (send_audio mediaRoot inp st).resp.status = 400 ∧
    (send_audio mediaRoot inp st).resp.body =
      Body.json [("error", missingAudioMsg)] ∧
    (send_audio mediaRoot inp st).writes = [] ∧
    (send_audio mediaRoot inp st).calls = [] ∧
    (send_audio mediaRoot inp st).state = st := by
  simp [send_audio, h]

/-- Witness for C3 at a concrete request with no `audio` field. -/
theorem C3_missing_audio_field_400_witness :
    (send_audio "/media"
        { audioField := none, apiKey := some "k",
          oracle := { clientCtor := Except.ok 1, conversion := Except.ok (),
                      liveOutcome := Except.ok (some [1], some "hi"),
                      transcriptResult := "t" },
          uploadTimestamp := "ts1", respTimestamp := "ts2",
          saveUploadOk := true, saveResponseOk := true } ⟨none⟩).resp.status = 400 ∧
    (send_audio "/media"
        { audioField := none, apiKey := some "k",
          oracle := { clientCtor := Except.ok 1, conversion := Except.ok (),
                      liveOutcome := Except.ok (some [1], some "hi"),
                      transcriptResult := "t" },
          uploadTimestamp := "ts1", respTimestamp := "ts2",
          saveUploadOk := true, saveResponseOk := true } ⟨none⟩).resp.body =
      Body.json [("error", missingAudioMsg)] ∧
    (send_audio "/media"
        { audioField := none, apiKey := some "k",
          oracle := { clientCtor := Except.ok 1, conversion := Except.ok (),
                      liveOutcome := Except.ok (some [1], some "hi"),
                      transcriptResult := "t" },
          uploadTimestamp := "ts1", respTimestamp := "ts2",
          saveUploadOk := true, saveResponseOk := true } ⟨none⟩).writes = [] ∧
    (send_audio "/media"
        { audioField := none, apiKey := some "k",
          oracle := { clientCtor := Except.ok 1, conversion := Except.ok (),
                      liveOutcome := Except.ok (some [1], some "hi"),
                      transcriptResult := "t" },
          uploadTimestamp := "ts1", respTimestamp := "ts2",
          saveUploadOk := true, saveResponseOk := true } ⟨none⟩).calls = [] ∧
    (send_audio "/media"
        { audioField := none, apiKey := some "k",
          oracle := { clientCtor := Except.ok 1, conversion := Except.ok (),
                      liveOutcome := Except.ok (some [1], some "hi"),
                      transcriptResult := "t" },
          uploadTimestamp := "ts1", respTimestamp := "ts2",
          saveUploadOk := true, saveResponseOk := true } ⟨none⟩).state = ⟨none⟩ :=
  C3_missing_audio_field_400 "/media" _ ⟨none⟩ rfl

/-- If initialization hands back no client, the request is answered with
the init error, no vendor call is made. -/
theorem process_init_failed (st : GeminiState) (apiKey : Option String)
    (o : ProcessOracle) (err : Option String) (st1 : GeminiState)
    (hg : get_gemini_model st apiKey o.clientCtor = ((none, err), st1)) :
    process_audio_and_get_audio_response st apiKey o =
      ((none, some ("Error: Gemini model not initialized. " ++ pyStr err)), [], st1) := by
  simp [process_audio_and_get_audio_response, hg]

/-- A raised conversion step is caught by the outer handler before any
vendor call. -/
theorem process_conv_err (st : GeminiState) (apiKey : Option String)
    (o : ProcessOracle) (c : Client) (err : Option String) (st1 : GeminiState)
    (e : String)
    (hg : get_gemini_model st apiKey o.clientCtor = ((some c, err), st1))
    (hconv : o.conversion = Except.error e) :
    process_audio_and_get_audio_response st apiKey o =
      ((none, some ("Error processing audio: " ++ e)), [], st1) := by
  simp [process_audio_and_get_audio_response, hg, hconv]

/-- A raised live call is caught by the outer handler: no audio, the
exception text as detail, and no further vendor call. -/
theorem process_live_err (st : GeminiState) (apiKey : Option String)
    (o : ProcessOracle) (c : Client) (err : Option String) (st1 : GeminiState)
    (e : String)
    (hg : get_gemini_model st apiKey o.clientCtor = ((some c, err), st1))
    (hconv : o.conversion = Except.ok ())
    (hlive : o.liveOutcome = Except.error e) :
    process_audio_and_get_audio_response st apiKey o =
      ((none, some ("Error processing audio: " ++ e)), [VendorCall.live], st1) := by
  simp [process_audio_and_get_audio_response, hg, hconv, hlive]

/-- Live call succeeded but returned falsy text: the non-streaming
transcription fallback supplies the text. -/
theorem process_live_ok_no_text (st : GeminiState) (apiKey : Option String)
    (o : ProcessOracle) (c : Client) (err : Option String) (st1 : GeminiState)
    (a : Option Bytes) (t : Option String)
    (hg : get_gemini_model st apiKey o.clientCtor = ((some c, err), st1))
    (hconv : o.conversion = Except.ok ())
    (hlive : o.liveOutcome = Except.ok (a, t))
    (ht : textFalsy t = true) :
    process_audio_and_get_audio_response st apiKey o =
      ((a, some o.transcriptResult),
        [VendorCall.live, VendorCall.nonStreaming], st1) := by
  simp [process_audio_and_get_audio_response, hg, hconv, hlive, ht]

/-- Live call succeeded with truthy text: its result is returned as is,
with no fallback. -/
theorem process_live_ok_text (st : GeminiState) (apiKey : Option String)
    (o : ProcessOracle) (c : Client) (err : Option String) (st1 : GeminiState)
    (a : Option Bytes) (t : Option String)
    (hg : get_gemini_model st apiKey o.clientCtor = ((some c, err), st1))
    (hconv : o.conversion = Except.ok ())
    (hlive : o.liveOutcome = Except.ok (a, t))
    (ht : textFalsy t = false) :
    process_audio_and_get_audio_response st apiKey o =
      ((a, t), [VendorCall.live], st1) := by
  simp [process_audio_and_get_audio_response, hg, hconv, hlive, ht]

/-- With an empty cache and an absent or empty/whitespace key, the whole
request is answered with the key error and no vendor call is made. -/
theorem process_not_initialized (st : GeminiState) (apiKey : Option String)
    (o : ProcessOracle)
    (hcache : st.gemini_model = none)
    (hkey : apiKey = none ∨
      ∃ k, apiKey = some k ∧ (k.isEmpty || allWhitespace k) = true) :
    process_audio_and_get_audio_response st apiKey o =
      ((none, some ("Error: Gemini model not initialized. " ++ keyErrMsg)), [], st) := by
  have hg : get_gemini_model st apiKey o.clientCtor = ((none, some keyErrMsg), st) := by
    rcases hkey with h | ⟨k, hk, hke⟩
    · rw [h]
      exact get_gemini_model_no_key st o.clientCtor hcache
    · rw [hk]
      exact get_gemini_model_empty_key st k o.clientCtor hcache hke
  rw [process_init_failed st apiKey o (some keyErrMsg) st hg]
  simp [pyStr]

/-- A request state in which the vendor streaming call raises: the client
is already cached, conversion succeeds, the live session raises. -/
def liveFailOracle : ProcessOracle :=
  { clientCtor := Except.ok 1, conversion := Except.ok (),
    liveOutcome := Except.error "websocket closed", transcriptResult := "t" }

/-- Counterexample to claim C1 as stated: at this concrete request the
vendor streaming (live) call fails, yet no non-streaming fallback call is
made — failure is reported directly (no audio), so the code does not
"fall back once to a non-streaming call before giving up" on live
failure. -/
theorem C1_counterexample :
    (VendorCall.nonStreaming ∉
      (process_audio_and_get_audio_response ⟨some 1⟩ (some "k") liveFailOracle).2.1) ∧
    (process_audio_and_get_audio_response ⟨some 1⟩ (some "k") liveFailOracle).1.1 =
      none := by
  decide

/-- Claim C1 (amended): the non-streaming fallback is made at most once
per request; when the live call raises, no fallback call at all is made
and the request reports failure (no audio bytes); and a fallback call
happens only when the live call succeeded but returned falsy text. -/
theorem C1_amended_fallback_only_on_missing_text (st : GeminiState)
    (apiKey : Option String) (o : ProcessOracle) :
    ((process_audio_and_get_audio_response st apiKey o).2.1.count
        VendorCall.nonStreaming ≤ 1) ∧
    (∀ e, o.liveOutcome = Except.error e →
      VendorCall.nonStreaming ∉
        (process_audio_and_get_audio_response st apiKey o).2.1 ∧
      bytesFalsy (process_audio_and_get_audio_response st apiKey o).1.1 = true) ∧
    (VendorCall.nonStreaming ∈
        (process_audio_and_get_audio_response st apiKey o).2.1 →
      ∃ a t, o.liveOutcome = Except.ok (a, t) ∧ textFalsy t = true) := by
  rcases hg : get_gemini_model st apiKey o.clientCtor with ⟨⟨m, err⟩, st1⟩
  cases m with
  | none =>
    rw [process_init_failed st apiKey o err st1 hg]
    refine ⟨by simp, fun e _ => by simp [bytesFalsy], by simp⟩
  | some c =>
    cases hconv : o.conversion with
    | error e0 =>
      rw [process_conv_err st apiKey o c err st1 e0 hg hconv]
      refine ⟨by simp, fun e _ => by simp [bytesFalsy], by simp⟩
    | ok u =>
      cases hlive : o.liveOutcome with
      | error e0 =>
        rw [process_live_err st apiKey o c err st1 e0 hg hconv hlive]
        refine ⟨by simp, fun e _ => ⟨by simp, by simp [bytesFalsy]⟩, ?_⟩
        intro hmem
        simp at hmem
      | ok p =>
        obtain ⟨a, t⟩ := p
        by_cases ht : textFalsy t = true
        · rw [process_live_ok_no_text st apiKey o c err st1 a t hg hconv hlive ht]
          refine ⟨by simp, ?_, fun _ => ⟨a, t, rfl, ht⟩⟩
          intro e he
          simp at he
        · have ht' : textFalsy t = false := by simpa using ht
          rw [process_live_ok_text st apiKey o c err st1 a t hg hconv hlive ht']
          refine ⟨by simp, ?_, ?_⟩
          · intro e he
            simp at he
          · intro hmem
            simp at hmem

/-- Witness for the amended C1: the live-failure request above makes no
fallback call and reports failure. -/
theorem C1_amended_fallback_only_on_missing_text_witness :
    VendorCall.nonStreaming ∉
      (process_audio_and_get_audio_response ⟨some 1⟩ (some "k") liveFailOracle).2.1 ∧
    bytesFalsy
      (process_audio_and_get_audio_response ⟨some 1⟩ (some "k") liveFailOracle).1.1 =
      true :=
  (C1_amended_fallback_only_on_missing_text ⟨some 1⟩ (some "k")
    liveFailOracle).2.1 "websocket closed" rfl

/-- A concrete POST with no `audio` field sent while no API key is set. -/
def noKeyNoAudioInput : SendAudioInput :=
  { audioField := none, apiKey := none,
    oracle := { clientCtor := Except.error "unreachable",
                conversion := Except.ok (),
                liveOutcome := Except.error "unreachable",
                transcriptResult := "t" },
    uploadTimestamp := "ts1", respTimestamp := "ts2",
    saveUploadOk := true, saveResponseOk := true }

/-- Counterexample to claim C2 as stated: a POST to `/send_audio/` made
while `GEMINI_API_KEY` is unset can answer 400 (missing `audio` field),
not 500 — the missing-file check runs before the key is ever consulted. -/
theorem C2_counterexample :
    (send_audio "/media" noKeyNoAudioInput ⟨none⟩).resp.status = 400 ∧
    ¬ (send_audio "/media" noKeyNoAudioInput ⟨none⟩).resp.status = 500 := by
  decide

set_option maxRecDepth 10000 in
/-- Claim C2 (amended): for every POST to `/send_audio/` that does carry
an `audio` field, made while `GEMINI_API_KEY` is unset or
empty/whitespace and no client handle has been cached yet, the response
has status 500 and its JSON error body mentions model initialization. -/
theorem C2_amended_unset_key_500 (mediaRoot : String) (inp : SendAudioInput)
    (st : GeminiState) (f : UploadedFile)
    (hf : inp.audioField = some f) (hname : f.name.isEmpty = false)
    (hcache : st.gemini_model = none)
    (hkey : inp.apiKey = none ∨
      ∃ k, inp.apiKey = some k ∧ (k.isEmpty || allWhitespace k) = true) :
    (send_audio mediaRoot inp st).resp.status = 500 ∧
    ∃ msg, (send_audio mediaRoot inp st).resp.body = Body.json [("error", msg)] ∧
      ∃ pre post, msg = pre ++ "model not initialized" ++ post := by
  have hp := process_not_initialized st inp.apiKey inp.oracle hcache hkey
  refine ⟨by simp [send_audio, hf, hname, hp], ?_⟩
  refine ⟨"Failed to get audio response from Gemini. Details: " ++
      ("Error: Gemini model not initialized. " ++ keyErrMsg), ?_, ?_⟩
  · simp [send_audio, hf, hname, hp, pyStr]
  · refine ⟨"Failed to get audio response from Gemini. Details: Error: Gemini ",
      ". " ++ keyErrMsg, ?_⟩
    decide

/-- Witness for the amended C2: a concrete POST with an audio file, no
key in the environment, fresh state. -/
def noKeyWithAudioInput : SendAudioInput :=
  { audioField := some ⟨"a.wav", [1, 2, 3]⟩, apiKey := none,
    oracle := { clientCtor := Except.error "unreachable",
                conversion := Except.ok (),
                liveOutcome := Except.error "unreachable",
                transcriptResult := "t" },
    uploadTimestamp := "ts1", respTimestamp := "ts2",
    saveUploadOk := true, saveResponseOk := true }

theorem C2_amended_unset_key_500_witness :
    (send_audio "/media" noKeyWithAudioInput ⟨none⟩).resp.status = 500 ∧
    ∃ msg, (send_audio "/media" noKeyWithAudioInput ⟨none⟩).resp.body =
        Body.json [("error", msg)] ∧
      ∃ pre post, msg = pre ++ "model not initialized" ++ post :=
  C2_amended_unset_key_500 "/media" noKeyWithAudioInput ⟨none⟩
    ⟨"a.wav", [1, 2, 3]⟩ rfl rfl rfl (Or.inl rfl)

/-- Claim C4: with a valid audio upload and the vendor (mocked) returning
fixed non-empty audio bytes `d`, the endpoint answers 200 with
`Content-Type: audio/mpeg` and a body of exactly those bytes. -/
theorem C4_mocked_success_200 (mediaRoot : String) (inp : SendAudioInput)
    (st : GeminiState) (f : UploadedFile) (d : Bytes) (t : Option String)
    (c : Client)
    (hf : inp.audioField = some f) (hname : f.name.isEmpty = false)
    (hinit : (get_gemini_model st inp.apiKey inp.oracle.clientCtor).1.1 = some c)
    (hconv : inp.oracle.conversion = Except.ok ())
    (hlive : inp.oracle.liveOutcome = Except.ok (some d, t))
    (hd : d.isEmpty = false) :
    (send_audio mediaRoot inp st).resp =
      ⟨200, "audio/mpeg", Body.bytes d⟩ := by
  rcases hg : get_gemini_model st inp.apiKey inp.oracle.clientCtor with ⟨⟨m, err⟩, st1⟩
  rw [hg] at hinit
  simp at hinit
  subst hinit
  by_cases ht : textFalsy t = true
  · have hp := process_live_ok_no_text st inp.apiKey inp.oracle c err st1
      (some d) t hg hconv hlive ht
    simp [send_audio, hf, hname, hp, hd]
  · have ht' : textFalsy t = false := by simpa using ht
    have hp := process_live_ok_text st inp.apiKey inp.oracle c err st1
      (some d) t hg hconv hlive ht'
    simp [send_audio, hf, hname, hp, hd]

/-- Witness for C4: cached client, conversion fine, mocked live call
returning bytes `[9, 8]` and text "hi". -/
def mockedOkInput : SendAudioInput :=
  { audioField := some ⟨"a.wav", [1, 2, 3]⟩, apiKey := some "k",
    oracle := { clientCtor := Except.ok 1, conversion := Except.ok (),
                liveOutcome := Except.ok (some [9, 8], some "hi"),
                transcriptResult := "t" },
    uploadTimestamp := "ts1", respTimestamp := "ts2",
    saveUploadOk := true, saveResponseOk := true }

theorem C4_mocked_success_200_witness :
    (send_audio "/media" mockedOkInput ⟨some 5⟩).resp =
      ⟨200, "audio/mpeg", Body.bytes [9, 8]⟩ :=
  C4_mocked_success_200 "/media" mockedOkInput ⟨some 5⟩ ⟨"a.wav", [1, 2, 3]⟩
    [9, 8] (some "hi") 5 rfl rfl rfl rfl rfl rfl

/-- The upload-save write of views.py lines 34-44 (empty when the guarded
save raised). -/
def uploadWriteOf (mediaRoot : String) (inp : SendAudioInput) (f : UploadedFile) :
    List FileWrite :=
  if inp.saveUploadOk then
    [⟨mediaRoot ++ "/uploads/upload_" ++ inp.uploadTimestamp ++ "_" ++ f.name,
      f.content⟩]
  else []

/-- `send_audio` with no (or a falsy) `audio` field answers 400 and does
nothing else. -/
theorem send_audio_no_file (mediaRoot : String) (inp : SendAudioInput)
    (st : GeminiState) (hfield : inp.audioField = none) :
    send_audio mediaRoot inp st =
      { resp := ⟨400, "application/json", Body.json [("error", missingAudioMsg)]⟩,
        writes := [], calls := [], state := st } := by
  simp [send_audio, hfield]

/-- Same 400 answer for a present but falsy (unnamed) file. -/
theorem send_audio_unnamed_file (mediaRoot : String) (inp : SendAudioInput)
    (st : GeminiState) (f : UploadedFile)
    (hfield : inp.audioField = some f) (hname : f.name.isEmpty = true) :
    send_audio mediaRoot inp st =
      { resp := ⟨400, "application/json", Body.json [("error", missingAudioMsg)]⟩,
        writes := [], calls := [], state := st } := by
  simp [send_audio, hfield, hname]

/-- `send_audio` when processing produced a falsy audio payload: the 500
error embedding the text response, and only the upload write. -/
theorem send_audio_no_audio (mediaRoot : String) (inp : SendAudioInput)
    (st : GeminiState) (f : UploadedFile) (a : Option Bytes) (tr : Option String)
    (calls : List VendorCall) (st1 : GeminiState)
    (hfield : inp.audioField = some f) (hname : f.name.isEmpty = false)
    (hp : process_audio_and_get_audio_response st inp.apiKey inp.oracle =
      ((a, tr), calls, st1))
    (ha : bytesFalsy a = true) :
    send_audio mediaRoot inp st =
      { resp := ⟨500, "application/json",
          Body.json [("error",
            "Failed to get audio response from Gemini. Details: " ++ pyStr tr)]⟩,
        writes := uploadWriteOf mediaRoot inp f, calls := calls,
        state := st1 } := by
  cases a with
  | none => simp [send_audio, hfield, hname, hp, uploadWriteOf]
  | some d =>
    have hd : d.isEmpty = true := by simpa [bytesFalsy] using ha
    simp [send_audio, hfield, hname, hp, hd, uploadWriteOf]

/-- `send_audio` when processing produced non-empty audio bytes: 200 with
the bytes as `audio/mpeg`, upload and response writes. -/
theorem send_audio_ok (mediaRoot : String) (inp : SendAudioInput)
    (st : GeminiState) (f : UploadedFile) (d : Bytes) (tr : Option String)
    (calls : List VendorCall) (st1 : GeminiState)
    (hfield : inp.audioField = some f) (hname : f.name.isEmpty = false)
    (hp : process_audio_and_get_audio_response st inp.apiKey inp.oracle =
      ((some d, tr), calls, st1))
    (hd : d.isEmpty = false) :
    send_audio mediaRoot inp st =
      { resp := ⟨200, "audio/mpeg", Body.bytes d⟩,
        writes := uploadWriteOf mediaRoot inp f ++
          (if inp.saveResponseOk then
            [⟨mediaRoot ++ "/responses/response_" ++ inp.respTimestamp ++ ".mp3", d⟩]
          else []),
        calls := calls, state := st1 } := by
  simp [send_audio, hfield, hname, hp, hd, uploadWriteOf]

/-- Per request, each vendor call kind happens at most once. -/
theorem process_calls_count (st : GeminiState) (apiKey : Option String)
    (o : ProcessOracle) :
    (process_audio_and_get_audio_response st apiKey o).2.1.count
      VendorCall.live ≤ 1 ∧
    (process_audio_and_get_audio_response st apiKey o).2.1.count
      VendorCall.nonStreaming ≤ 1 := by
  rcases hg : get_gemini_model st apiKey o.clientCtor with ⟨⟨m, err⟩, st1⟩
  cases m with
  | none =>
    rw [process_init_failed st apiKey o err st1 hg]
    exact ⟨by simp, by simp⟩
  | some c =>
    cases hconv : o.conversion with
    | error e0 =>
      rw [process_conv_err st apiKey o c err st1 e0 hg hconv]
      exact ⟨by simp, by simp⟩
    | ok u =>
      cases hlive : o.liveOutcome with
      | error e0 =>
        rw [process_live_err st apiKey o c err st1 e0 hg hconv hlive]
        exact ⟨by simp [List.count_cons], by simp [List.count_cons]⟩
      | ok p =>
        obtain ⟨a, t⟩ := p
        by_cases ht : textFalsy t = true
        · rw [process_live_ok_no_text st apiKey o c err st1 a t hg hconv hlive ht]
          exact ⟨by simp [List.count_cons], by simp [List.count_cons]⟩
        · have ht' : textFalsy t = false := by simpa using ht
          rw [process_live_ok_text st apiKey o c err st1 a t hg hconv hlive ht']
          exact ⟨by simp [List.count_cons], by simp [List.count_cons]⟩

/-- Claim C7: with an audio file present and both guarded saves
succeeding, the request writes exactly the uploaded bytes under the media
root's `uploads/` directory (timestamped name carrying the original
filename) and — exactly when it succeeds — the synthesized bytes under
`responses/` (timestamped `.mp3` name), and nothing else. -/
theorem C7_file_writes (mediaRoot : String) (inp : SendAudioInput)
    (st : GeminiState) (f : UploadedFile)
    (hfield : inp.audioField = some f) (hname : f.name.isEmpty = false)
    (hup : inp.saveUploadOk = true) (hrsp : inp.saveResponseOk = true) :
    ((send_audio mediaRoot inp st).resp.status = 200 →
      ∃ d, (send_audio mediaRoot inp st).resp.body = Body.bytes d ∧
        (send_audio mediaRoot inp st).writes =
          [⟨mediaRoot ++ "/uploads/upload_" ++ inp.uploadTimestamp ++ "_" ++ f.name,
            f.content⟩,
           ⟨mediaRoot ++ "/responses/response_" ++ inp.respTimestamp ++ ".mp3", d⟩]) ∧
    ((send_audio mediaRoot inp st).resp.status ≠ 200 →
      (send_audio mediaRoot inp st).writes =
        [⟨mediaRoot ++ "/uploads/upload_" ++ inp.uploadTimestamp ++ "_" ++ f.name,
          f.content⟩]) := by
  rcases hp : process_audio_and_get_audio_response st inp.apiKey inp.oracle with
    ⟨⟨a, tr⟩, calls, st1⟩
  by_cases ha : bytesFalsy a = true
  · rw [send_audio_no_audio mediaRoot inp st f a tr calls st1 hfield hname hp ha]
    constructor
    · intro h
      simp at h
    · intro _
      simp [uploadWriteOf, hup]
  · cases a with
    | none => simp [bytesFalsy] at ha
    | some d =>
      have hd : d.isEmpty = false := by simpa [bytesFalsy] using ha
      rw [send_audio_ok mediaRoot inp st f d tr calls st1 hfield hname hp hd]
      constructor
      · intro _
        exact ⟨d, rfl, by simp [uploadWriteOf, hup, hrsp]⟩
      · intro h
        simp at h

/-- Witness for C7 at the concrete mocked-success request: both files are
written, upload first, response second. -/
theorem C7_file_writes_witness :
    ∃ d, (send_audio "/media" mockedOkInput ⟨some 5⟩).resp.body = Body.bytes d ∧
      (send_audio "/media" mockedOkInput ⟨some 5⟩).writes =
        [⟨"/media" ++ "/uploads/upload_" ++ "ts1" ++ "_" ++ "a.wav", [1, 2, 3]⟩,
         ⟨"/media" ++ "/responses/response_" ++ "ts2" ++ ".mp3", d⟩] :=
  (C7_file_writes "/media" mockedOkInput ⟨some 5⟩ ⟨"a.wav", [1, 2, 3]⟩
    rfl rfl rfl rfl).1 (by decide)

/-- Claim C8: every request is answered with 200, or with 400/500 and a
JSON body carrying an `error` key; 400 happens exactly on a missing
(falsy) upload; and the live vendor call is made at most once (no
retry). -/
theorem C8_failures_caught_no_retry (mediaRoot : String) (inp : SendAudioInput)
    (st : GeminiState) :
    ((send_audio mediaRoot inp st).resp.status = 200 ∨
      ((send_audio mediaRoot inp st).resp.status = 400 ∨
        (send_audio mediaRoot inp st).resp.status = 500) ∧
      ∃ msg, (send_audio mediaRoot inp st).resp.body = Body.json [("error", msg)]) ∧
    ((send_audio mediaRoot inp st).resp.status = 400 ↔
      fileFalsy inp.audioField = true) ∧
    (send_audio mediaRoot inp st).calls.count VendorCall.live ≤ 1 := by
  cases hfield : inp.audioField with
  | none =>
    rw [send_audio_no_file mediaRoot inp st hfield]
    exact ⟨Or.inr ⟨Or.inl rfl, missingAudioMsg, rfl⟩,
      by simp [fileFalsy, hfield], by simp⟩
  | some f =>
    by_cases hname : f.name.isEmpty = true
    · rw [send_audio_unnamed_file mediaRoot inp st f hfield hname]
      exact ⟨Or.inr ⟨Or.inl rfl, missingAudioMsg, rfl⟩,
        by simp [fileFalsy, hfield, hname], by simp⟩
    · have hname' : f.name.isEmpty = false := by simpa using hname
      have hcount := (process_calls_count st inp.apiKey inp.oracle).1
      rcases hp : process_audio_and_get_audio_response st inp.apiKey inp.oracle with
        ⟨⟨a, tr⟩, calls, st1⟩
      rw [hp] at hcount
      by_cases ha : bytesFalsy a = true
      · rw [send_audio_no_audio mediaRoot inp st f a tr calls st1 hfield hname' hp ha]
        exact ⟨Or.inr ⟨Or.inr rfl, _, rfl⟩,
          by simp [fileFalsy, hfield, hname'], hcount⟩
      · cases a with
        | none => simp [bytesFalsy] at ha
        | some d =>
          have hd : d.isEmpty = false := by simpa [bytesFalsy] using ha
          rw [send_audio_ok mediaRoot inp st f d tr calls st1 hfield hname' hp hd]
          exact ⟨Or.inl rfl, by simp [fileFalsy, hfield, hname'], hcount⟩

/-- Claim C9: a failure of either guarded filesystem save (upload or
response) never changes the HTTP response — status, headers and body are
those of the run where both saves succeed — nor the vendor calls nor the
final state; only the set of files on disk differs. -/
theorem C9_save_failures_invisible (mediaRoot : String) (inp : SendAudioInput)
    (st : GeminiState) (b1 b2 : Bool) :
    (send_audio mediaRoot { inp with saveUploadOk := b1, saveResponseOk := b2 } st).resp =
      (send_audio mediaRoot { inp with saveUploadOk := true, saveResponseOk := true } st).resp ∧
    (send_audio mediaRoot { inp with saveUploadOk := b1, saveResponseOk := b2 } st).calls =
      (send_audio mediaRoot { inp with saveUploadOk := true, saveResponseOk := true } st).calls ∧
    (send_audio mediaRoot { inp with saveUploadOk := b1, saveResponseOk := b2 } st).state =
      (send_audio mediaRoot { inp with saveUploadOk := true, saveResponseOk := true } st).state := by
  rcases hfield : inp.audioField with _ | f
  · rw [send_audio_no_file mediaRoot
        ⟨none, inp.apiKey, inp.oracle, inp.uploadTimestamp, inp.respTimestamp, b1, b2⟩
        st rfl,
      send_audio_no_file mediaRoot
        ⟨none, inp.apiKey, inp.oracle, inp.uploadTimestamp, inp.respTimestamp, true, true⟩
        st rfl]
    exact ⟨rfl, rfl, rfl⟩
  · by_cases hname : f.name.isEmpty = true
    · rw [send_audio_unnamed_file mediaRoot
          ⟨some f, inp.apiKey, inp.oracle, inp.uploadTimestamp, inp.respTimestamp, b1, b2⟩
          st f rfl hname,
        send_audio_unnamed_file mediaRoot
          ⟨some f, inp.apiKey, inp.oracle, inp.uploadTimestamp, inp.respTimestamp, true, true⟩
          st f rfl hname]
      exact ⟨rfl, rfl, rfl⟩
    · have hname' : f.name.isEmpty = false := by simpa using hname
      rcases hp : process_audio_and_get_audio_response st inp.apiKey inp.oracle with
        ⟨⟨a, tr⟩, calls, st1⟩
      by_cases ha : bytesFalsy a = true
      · rw [send_audio_no_audio mediaRoot
            ⟨some f, inp.apiKey, inp.oracle, inp.uploadTimestamp, inp.respTimestamp, b1, b2⟩
            st f a tr calls st1 rfl hname' hp ha,
          send_audio_no_audio mediaRoot
            ⟨some f, inp.apiKey, inp.oracle, inp.uploadTimestamp, inp.respTimestamp, true, true⟩
            st f a tr calls st1 rfl hname' hp ha]
        exact ⟨rfl, rfl, rfl⟩
      · cases a with
        | none => simp [bytesFalsy] at ha
        | some d =>
          have hd : d.isEmpty = false := by simpa [bytesFalsy] using ha
          rw [send_audio_ok mediaRoot
              ⟨some f, inp.apiKey, inp.oracle, inp.uploadTimestamp, inp.respTimestamp, b1, b2⟩
              st f d tr calls st1 rfl hname' hp hd,
            send_audio_ok mediaRoot
              ⟨some f, inp.apiKey, inp.oracle, inp.uploadTimestamp, inp.respTimestamp, true, true⟩
              st f d tr calls st1 rfl hname' hp hd]
          exact ⟨rfl, rfl, rfl⟩

/-- Claim C10: when processing yields a falsy audio payload (`None` or
empty bytes) — even alongside a non-empty text response — the endpoint
answers 500 with a JSON error that embeds that text response as the
failure detail; and a 200 answer always carries non-empty audio bytes. -/
theorem C10_falsy_audio_500_embeds_text (mediaRoot : String)
    (inp : SendAudioInput) (st : GeminiState) (f : UploadedFile)
    (hfield : inp.audioField = some f) (hname : f.name.isEmpty = false) :
    (bytesFalsy
        (process_audio_and_get_audio_response st inp.apiKey inp.oracle).1.1 = true →
      (send_audio mediaRoot inp st).resp.status = 500 ∧
      (send_audio mediaRoot inp st).resp.body = Body.json [("error",
        "Failed to get audio response from Gemini. Details: " ++
          pyStr (process_audio_and_get_audio_response st inp.apiKey
            inp.oracle).1.2)]) ∧
    ((send_audio mediaRoot inp st).resp.status = 200 →
      ∃ d, (send_audio mediaRoot inp st).resp.body = Body.bytes d ∧
        d.isEmpty = false) := by
  rcases hp : process_audio_and_get_audio_response st inp.apiKey inp.oracle with
    ⟨⟨a, tr⟩, calls, st1⟩
  by_cases ha : bytesFalsy a = true
  · rw [send_audio_no_audio mediaRoot inp st f a tr calls st1 hfield hname hp ha]
    refine ⟨fun _ => ⟨rfl, rfl⟩, ?_⟩
    intro h
    simp at h
  · cases a with
    | none => simp [bytesFalsy] at ha
    | some d =>
      have hd : d.isEmpty = false := by simpa [bytesFalsy] using ha
      rw [send_audio_ok mediaRoot inp st f d tr calls st1 hfield hname hp hd]
      refine ⟨?_, fun _ => ⟨d, rfl, hd⟩⟩
      intro hfalsy
      simp [bytesFalsy, hd] at hfalsy

/-- A request in which the mocked live call returns no audio bytes but a
non-empty text response; the client is already cached. -/
def emptyAudioInput : SendAudioInput :=
  { audioField := some ⟨"a.wav", [1, 2, 3]⟩, apiKey := some "k",
    oracle := { clientCtor := Except.ok 1, conversion := Except.ok (),
                liveOutcome := Except.ok (none, some "hello"),
                transcriptResult := "t" },
    uploadTimestamp := "ts1", respTimestamp := "ts2",
    saveUploadOk := true, saveResponseOk := true }

/-- Witness for C10 at the concrete no-audio-with-text request. -/
theorem C10_falsy_audio_500_embeds_text_witness :
    (send_audio "/media" emptyAudioInput ⟨some 5⟩).resp.status = 500 ∧
    (send_audio "/media" emptyAudioInput ⟨some 5⟩).resp.body =
      Body.json [("error",
        "Failed to get audio response from Gemini. Details: " ++
          pyStr (process_audio_and_get_audio_response ⟨some 5⟩
            emptyAudioInput.apiKey emptyAudioInput.oracle).1.2)] :=
  (C10_falsy_audio_500_embeds_text "/media" emptyAudioInput ⟨some 5⟩
    ⟨"a.wav", [1, 2, 3]⟩ rfl rfl).1 (by decide)

/-- Witness for C8 at the concrete mocked-success request. -/
theorem C8_failures_caught_no_retry_witness :
    ((send_audio "/media" mockedOkInput ⟨some 5⟩).resp.status = 200 ∨
      ((send_audio "/media" mockedOkInput ⟨some 5⟩).resp.status = 400 ∨
        (send_audio "/media" mockedOkInput ⟨some 5⟩).resp.status = 500) ∧
      ∃ msg, (send_audio "/media" mockedOkInput ⟨some 5⟩).resp.body =
        Body.json [("error", msg)]) ∧
    ((send_audio "/media" mockedOkInput ⟨some 5⟩).resp.status = 400 ↔
      fileFalsy mockedOkInput.audioField = true) ∧
    (send_audio "/media" mockedOkInput ⟨some 5⟩).calls.count VendorCall.live ≤ 1 :=
  C8_failures_caught_no_retry "/media" mockedOkInput ⟨some 5⟩
